import Mathlib

/-!
Verification development for the EdgeMind tool-call router.

The subject is the inline Lambda function embedded in
`src/infra/stacks/agentcore_stack.py` (`_get_lambda_code`): the functions
`handler`, `route_tool_call`, `encode_param` and `call_backend_api`, plus the
agent entrypoints in `src/agent/chat/src/main.py` and
`src/agent/troubleshoot/src/main.py`.

Python values that can appear in a decoded tool-call event are modelled by the
`Json` inductive type (`Json.null` doubles as Python `None`, since `json.loads`
maps JSON `null` to `None`).  Python dictionaries are modelled as association
lists with first-match lookup and in-place update, matching `dict.get` /
`dict.__setitem__` observably.  The outbound HTTP call performed by
`urllib.request.urlopen` is modelled by an oracle `World` mapping the built
request to one of the outcome classes that the Python code distinguishes with
its `except` clauses.  Exception *message texts* produced by the Python
runtime (e.g. the text of an `AttributeError`) are represented by fixed
placeholder strings; no theorem below depends on their exact wording, only on
which code path produces them.  JSON serialization of the response body
(`json.dumps(result)`) is abstracted: the response carries the value that the
source serializes.
-/

/-- Model of a decoded JSON / Python value flowing through the Lambda.
A number is kept as its decimal literal, `mant × 10⁻ᵈᵉᶜ` (so `0.82` is
`num 82 2` and `1000` is `num 1000 0`): the router never computes with a
payload number, it only passes it through, so the inert literal suffices
and keeps equality kernel-reducible. -/
inductive Json where
  | null
  | bool (b : Bool)
  | num (mant : Int) (dec : Nat)
  | str (s : String)
  | arr (elems : List Json)
  | obj (fields : List (String × Json))

mutual

/-- Structural equality test on `Json` (kernel-reducible). -/
def jsonBeq : Json → Json → Bool
  | .null, .null => true
  | .bool a, .bool b => a == b
  | .num a b, .num c d => a == c && b == d
  | .str a, .str b => a == b
  | .arr xs, .arr ys => jsonListBeq xs ys
  | .obj xs, .obj ys => jsonObjBeq xs ys
  | _, _ => false

/-- Structural equality test on lists of `Json`. -/
def jsonListBeq : List Json → List Json → Bool
  | [], [] => true
  | x :: xs, y :: ys => jsonBeq x y && jsonListBeq xs ys
  | _, _ => false

/-- Structural equality test on object field lists. -/
def jsonObjBeq : List (String × Json) → List (String × Json) → Bool
  | [], [] => true
  | (k, v) :: xs, (l, w) :: ys => k == l && jsonBeq v w && jsonObjBeq xs ys
  | _, _ => false

end

mutual

/-- Soundness of `jsonBeq`. -/
def jsonBeq_sound : (a b : Json) → jsonBeq a b = true → a = b
  | .null, .null, _ => rfl
  | .bool _, .bool _, h => congrArg Json.bool (eq_of_beq h)
  | .num a b, .num c d, h =>
      have hp : (a == c) = true ∧ (b == d) = true := Bool.and_eq_true_iff.mp h
      congrArg₂ Json.num (eq_of_beq hp.1) (eq_of_beq hp.2)
  | .str _, .str _, h => congrArg Json.str (eq_of_beq h)
  | .arr xs, .arr ys, h => congrArg Json.arr (jsonListBeq_sound xs ys h)
  | .obj xs, .obj ys, h => congrArg Json.obj (jsonObjBeq_sound xs ys h)
  | .null, .bool _, h => nomatch h
  | .null, .num _ _, h => nomatch h
  | .null, .str _, h => nomatch h
  | .null, .arr _, h => nomatch h
  | .null, .obj _, h => nomatch h
  | .bool _, .null, h => nomatch h
  | .bool _, .num _ _, h => nomatch h
  | .bool _, .str _, h => nomatch h
  | .bool _, .arr _, h => nomatch h
  | .bool _, .obj _, h => nomatch h
  | .num _ _, .null, h => nomatch h
  | .num _ _, .bool _, h => nomatch h
  | .num _ _, .str _, h => nomatch h
  | .num _ _, .arr _, h => nomatch h
  | .num _ _, .obj _, h => nomatch h
  | .str _, .null, h => nomatch h
  | .str _, .bool _, h => nomatch h
  | .str _, .num _ _, h => nomatch h
  | .str _, .arr _, h => nomatch h
  | .str _, .obj _, h => nomatch h
  | .arr _, .null, h => nomatch h
  | .arr _, .bool _, h => nomatch h
  | .arr _, .num _ _, h => nomatch h
  | .arr _, .str _, h => nomatch h
  | .arr _, .obj _, h => nomatch h
  | .obj _, .null, h => nomatch h
  | .obj _, .bool _, h => nomatch h
  | .obj _, .num _ _, h => nomatch h
  | .obj _, .str _, h => nomatch h
  | .obj _, .arr _, h => nomatch h

/-- Soundness of `jsonListBeq`. -/
def jsonListBeq_sound : (xs ys : List Json) → jsonListBeq xs ys = true → xs = ys
  | [], [], _ => rfl
  | x :: xs, y :: ys, h =>
      have hp : jsonBeq x y = true ∧ jsonListBeq xs ys = true := by
        have h' : (jsonBeq x y && jsonListBeq xs ys) = true := h
        exact Bool.and_eq_true_iff.mp h'
      congrArg₂ List.cons (jsonBeq_sound x y hp.1) (jsonListBeq_sound xs ys hp.2)
  | [], _ :: _, h => nomatch h
  | _ :: _, [], h => nomatch h

/-- Soundness of `jsonObjBeq`. -/
def jsonObjBeq_sound : (xs ys : List (String × Json)) → jsonObjBeq xs ys = true → xs = ys
  | [], [], _ => rfl
  | (k, v) :: xs, (l, w) :: ys, h =>
      have hp : ((k == l) && jsonBeq v w) = true ∧ jsonObjBeq xs ys = true := by
        have h' : ((k == l) && jsonBeq v w && jsonObjBeq xs ys) = true := h
        exact Bool.and_eq_true_iff.mp h'
      have hkv : (k == l) = true ∧ jsonBeq v w = true := Bool.and_eq_true_iff.mp hp.1
      congrArg₂ List.cons
        (congrArg₂ Prod.mk (eq_of_beq hkv.1) (jsonBeq_sound v w hkv.2))
        (jsonObjBeq_sound xs ys hp.2)
  | [], _ :: _, h => nomatch h
  | _ :: _, [], h => nomatch h

end

mutual

/-- Reflexivity of `jsonBeq`. -/
def jsonBeq_refl : (a : Json) → jsonBeq a a = true
  | .null => rfl
  | .bool a => beq_self_eq_true a
  | .num a b =>
      (congrArg₂ (· && ·) (beq_self_eq_true a) (beq_self_eq_true b)).trans rfl
  | .str a => beq_self_eq_true a
  | .arr xs => jsonListBeq_refl xs
  | .obj xs => jsonObjBeq_refl xs

/-- Reflexivity of `jsonListBeq`. -/
def jsonListBeq_refl : (xs : List Json) → jsonListBeq xs xs = true
  | [] => rfl
  | x :: xs =>
      (congrArg₂ (· && ·) (jsonBeq_refl x) (jsonListBeq_refl xs)).trans rfl

/-- Reflexivity of `jsonObjBeq`. -/
def jsonObjBeq_refl : (xs : List (String × Json)) → jsonObjBeq xs xs = true
  | [] => rfl
  | (k, v) :: xs =>
      (congrArg₂ (· && ·)
        ((congrArg₂ (· && ·) (beq_self_eq_true k) (jsonBeq_refl v)).trans rfl)
        (jsonObjBeq_refl xs)).trans rfl

end

instance : DecidableEq Json := fun a b =>
  if h : jsonBeq a b = true then isTrue (jsonBeq_sound a b h)
  else isFalse (fun e => h (e ▸ jsonBeq_refl a))

/-- Python truthiness (`if x:`) for the modelled values. -/
def pyTruthy : Json → Bool
  | .null => false
  | .bool b => b
  | .num m _ => m ≠ 0
  | .str s => s ≠ ""
  | .arr l => !l.isEmpty
  | .obj l => !l.isEmpty

/-- Lookup in a decoded JSON object (`d.get(key)` on a dict with string
keys). -/
def jlookup : List (String × Json) → String → Option Json
  | [], _ => none
  | (k, v) :: rest, key => if k = key then some v else jlookup rest key

/-- Hashable Python value usable as a dictionary key.  The handler stores
`prop.get("name")` as a key, which may be `None` (`PyKey.none`) or any
hashable JSON scalar.  Python value-equality across `bool`/`int`/`float`
keys (`True == 1`) is not modelled (keys are compared structurally); the
router only ever looks a key up by an exact string, for which the two
notions agree. -/
inductive PyKey where
  | none
  | kbool (b : Bool)
  | knum (mant : Int) (dec : Nat)
  | kstr (s : String)
deriving DecidableEq

/-- Conversion of a decoded JSON value to a dictionary key; `Option.none`
means the value is unhashable (a list or dict), so `params[key] = v` would
raise `TypeError`. -/
def toKey : Json → Option PyKey
  | .null => some .none
  | .bool b => some (.kbool b)
  | .num m d => some (.knum m d)
  | .str s => some (.kstr s)
  | .arr _ => Option.none
  | .obj _ => Option.none

/-- Python dictionary with hashable keys and arbitrary values, as built by
the handler for `params`. -/
abbrev PyDict := List (PyKey × Json)

/-- Model of `d.get(key)` on a `PyDict`. -/
def dictGet : PyDict → PyKey → Option Json
  | [], _ => Option.none
  | (k, v) :: rest, key => if k = key then some v else dictGet rest key

/-- Model of `d.get(key, dflt)` on a `PyDict`. -/
def dictGetD (d : PyDict) (key : PyKey) (dflt : Json) : Json :=
  (dictGet d key).getD dflt

/-- Model of `d[key] = v` on a `PyDict`: update in place, else append. -/
def dictSet : PyDict → PyKey → Json → PyDict
  | [], key, v => [(key, v)]
  | (k, w) :: rest, key, v =>
      if k = key then (k, v) :: rest else (k, w) :: dictSet rest key v

/-- UTF-8 encoding of one character, as byte values (what
`urllib.parse.quote` percent-encodes). -/
def utf8Bytes (c : Char) : List Nat :=
  let n := c.toNat
  if n < 128 then [n]
  else if n < 2048 then [192 + n / 64, 128 + n % 64]
  else if n < 65536 then [224 + n / 4096, 128 + (n / 64) % 64, 128 + n % 64]
  else [240 + n / 262144, 128 + (n / 4096) % 64, 128 + (n / 64) % 64, 128 + n % 64]

/-- Uppercase hexadecimal digit, as used by `urllib.parse.quote`. -/
def hexDigit (n : Nat) : Char :=
  if n < 10 then Char.ofNat (48 + n) else Char.ofNat (55 + n)

/-- Percent-escape of one byte (`%XX`, uppercase). -/
def percentByte (n : Nat) : String :=
  String.mk ['%', hexDigit (n / 16), hexDigit (n % 16)]

/-- Bytes that `urllib.parse.quote` with an empty `safe` set leaves
unescaped: ASCII letters, digits, and `_.-~`. -/
def isUrlSafeByte (n : Nat) : Bool :=
  (65 ≤ n && n ≤ 90) || (97 ≤ n && n ≤ 122) || (48 ≤ n && n ≤ 57) ||
    n == 45 || n == 46 || n == 95 || n == 126

/-- Encoding of one byte under `urllib.parse.quote` with empty `safe`. -/
def quoteByte (n : Nat) : String :=
  if isUrlSafeByte n then String.singleton (Char.ofNat n) else percentByte n

/-- Model of `urllib.parse.quote(s, safe=...)` with the empty safe set, as
called by `encode_param`. -/
def urllibQuote (s : String) : String :=
  String.join ((s.data.flatMap utf8Bytes).map quoteByte)

/-- Model of Python `s.startswith(q)` for the one-character double quote. -/
def startsWithQuote (s : String) : Bool :=
  match s.data with
  | [] => false
  | c :: _ => c = '"'

/-- Model of Python `s.endswith(q)` for the one-character double quote. -/
def endsWithQuote (s : String) : Bool :=
  match s.data.getLast? with
  | Option.none => false
  | some c => c = '"'

/-- Model of the quote-stripping step inside `encode_param`
(`value[1:-1]` guarded by `startswith`/`endswith` on the double quote). -/
def stripQuotes (s : String) : String :=
  if startsWithQuote s && endsWithQuote s then
    String.mk ((s.data.drop 1).dropLast)
  else s

/-- Model of the Lambda helper `encode_param`.  On a non-string value the
Python attribute access `value.startswith` raises `AttributeError`, which
propagates out of `route_tool_call`; the `Except.error` carries a
placeholder for that exception text. -/
def encode_param : Json → Except String String
  | .str s => .ok (urllibQuote (stripQuotes s))
  | _ => .error "AttributeError: startswith"

instance exceptDecEq {ε α : Type} [DecidableEq ε] [DecidableEq α] :
    DecidableEq (Except ε α)
  | .error x, .error y =>
      if h : x = y then .isTrue (congrArg Except.error h)
      else .isFalse fun e => h (Except.error.inj e)
  | .ok x, .ok y =>
      if h : x = y then .isTrue (congrArg Except.ok h)
      else .isFalse fun e => h (Except.ok.inj e)
  | .error _, .ok _ => .isFalse fun e => Except.noConfusion e
  | .ok _, .error _ => .isFalse fun e => Except.noConfusion e


/-- HTTP method of the outbound request. -/
inductive Method where
  | GET
  | POST
deriving DecidableEq

/-- Request handed to `urllib.request.urlopen` by `call_backend_api`:
the path (query string included, exactly the string interpolated by the
source), the method, the optional JSON body, and the `timeout=` value the
source passes to `urlopen`. -/
structure BackendRequest where
  path : String
  method : Method
  data : Option Json
  timeoutSec : Nat
deriving DecidableEq

/-- Outcome classes of the `urlopen` call, matching the `except` clauses of
`call_backend_api`.  `success` is an HTTP 2xx response whose body parses as
the given JSON value; `badJson` is a 2xx response whose body fails
`json.loads` (the carried string is the `ValueError` text); `httpError` is
`urllib.error.HTTPError` (non-2xx status); `urlError` is
`urllib.error.URLError` (connection failure, including a connect timeout),
carrying `e.reason` as a string; `otherExn` is any other exception (e.g. a
socket read timeout), carrying `str(e)`. -/
inductive BackendOutcome where
  | success (body : Json)
  | badJson (msg : String)
  | httpError (code : Nat) (reason : String)
  | urlError (reason : String)
  | otherExn (msg : String)
deriving DecidableEq

/-- Behaviour of the backend HTTP service: what the `urlopen` call yields
for each request.  The router is verified for every such behaviour. -/
def World : Type := BackendRequest → BackendOutcome

/-- Value of the `timeout=` keyword in the single `urlopen` call of the
Lambda source: the literal `10`. -/
def urlopenTimeout : Nat := 10

/-- Request built by `call_backend_api` before calling `urlopen`:
`if method == "POST" and data:` attaches the JSON body, otherwise a request
with the given method and no body is built (Python `data` truthiness: `None`
or an empty dict is falsy). -/
def mkRequest (path : String) (method : Method) (data : Option Json) :
    BackendRequest :=
  if method = .POST && (match data with
                        | some d => pyTruthy d
                        | Option.none => false) then
    ⟨path, .POST, data, urlopenTimeout⟩
  else
    ⟨path, method, Option.none, urlopenTimeout⟩

/-- Model of the Lambda function `call_backend_api`.  Returns the dict the
Python function returns, paired with the request it issued.  Every `except`
branch returns a `{"error": ...}` dict; the success branch returns the
parsed body unchanged. -/
def call_backend_api (w : World) (path : String) (method : Method)
    (data : Option Json) : Json × BackendRequest :=
  let req := mkRequest path method data
  (match w req with
   | .success body => body
   | .badJson msg => .obj [("error", .str msg)]
   | .httpError code reason =>
       .obj [("error", .str ("Backend returned " ++ toString code ++ ": " ++ reason))]
   | .urlError reason =>
       .obj [("error", .str ("Failed to connect to backend: " ++ reason))]
   | .otherExn msg => .obj [("error", .str msg)],
   req)

/-- Model of the Lambda function `route_tool_call`.  The first component is
the returned dict, or `Except.error` when a Python exception (the
`AttributeError` from `encode_param` on a non-string value) propagates out
of the function; the second component lists the backend requests issued
(zero or one). -/
def route_tool_call (w : World) (function_name : String) (params : PyDict) :
    Except String Json × List BackendRequest :=
  if function_name = "get_oee_breakdown" then
    match encode_param (dictGetD params (.kstr "enterprise") (.str "ALL")) with
    | .error e => (.error e, [])
    | .ok enterprise =>
        let r := call_backend_api w ("/api/oee/v2?enterprise=" ++ enterprise) .GET Option.none
        (.ok r.1, [r.2])
  else if function_name = "get_equipment_states" then
    match encode_param (dictGetD params (.kstr "enterprise") (.str "ALL")) with
    | .error e => (.error e, [])
    | .ok enterprise =>
        let r := call_backend_api w ("/api/factory/status?enterprise=" ++ enterprise) .GET Option.none
        (.ok r.1, [r.2])
  else if function_name = "get_waste_by_line" then
    match encode_param (dictGetD params (.kstr "enterprise") (.str "ALL")) with
    | .error e => (.error e, [])
    | .ok enterprise =>
        let r := call_backend_api w ("/api/waste/breakdown?enterprise=" ++ enterprise) .GET Option.none
        (.ok r.1, [r.2])
  else if function_name = "get_batch_health" then
    let r := call_backend_api w "/api/batch/health?enterprise=Enterprise%20C" .GET Option.none
    (.ok r.1, [r.2])
  else if function_name = "query_influxdb" then
    let query := dictGetD params (.kstr "query") (.str "")
    let max_rows := dictGetD params (.kstr "max_rows") (.num 1000 0)
    let r := call_backend_api w "/api/influx/query" .POST
        (some (.obj [("query", query), ("max_rows", max_rows)]))
    (.ok r.1, [r.2])
  else
    (.ok (.obj [("error", .str ("Unknown function: " ++ function_name))]), [])

/-- Iteration of `for prop in properties: params[prop.get("name")] =
prop.get("value")` over a decoded JSON list.  A non-dict element makes
`prop.get` raise `AttributeError`; an unhashable `name` makes the key
assignment raise `TypeError`.  Either exception is caught by the
surrounding `try`, keeping the params accumulated so far. -/
def forProps : List Json → PyDict → PyDict
  | [], acc => acc
  | .obj kvs :: rest, acc =>
      match toKey ((jlookup kvs "name").getD .null) with
      | some k => forProps rest (dictSet acc k ((jlookup kvs "value").getD .null))
      | Option.none => acc
  | _ :: _, acc => acc

/-- Model of the parameter-extraction block of `handler`:
`request_body.get("content", {}).get("application/json", {}).get("properties", [])`
followed by the `for prop in properties` loop, all inside a `try` whose
`except` keeps whatever was accumulated.  A `.get` on a non-dict raises
immediately (empty params); iterating a dict visits its string keys, whose
`.get` raises at the first key (empty params, also when the dict is empty);
iterating a string or a non-iterable likewise yields empty params. -/
def extract_params (request_body : Json) : PyDict :=
  match request_body with
  | .obj fields =>
    match (jlookup fields "content").getD (.obj []) with
    | .obj cfields =>
      match (jlookup cfields "application/json").getD (.obj []) with
      | .obj jfields =>
        match (jlookup jfields "properties").getD (.arr []) with
        | .arr props => forProps props []
        | _ => []
      | _ => []
    | _ => []
  | _ => []

/-- OpenAPI-format response dict built by `handler` (both on the normal
path and in its `except` branch).  The `body` field carries the value whose
`json.dumps` the source embeds. -/
def openApiResponse (actionGroup apiPath httpMethod result : Json) : Json :=
  .obj [("messageVersion", .str "1.0"),
        ("response", .obj [
          ("actionGroup", actionGroup),
          ("apiPath", apiPath),
          ("httpMethod", httpMethod),
          ("responseBody", .obj [
            ("application/json", .obj [("body", result)])])])]

/-- Model of the Lambda function `handler`.  `Except.error` marks a Python
exception escaping `handler` itself: `event.get` on a non-dict event, or
`api_path.lstrip` on a truthy non-string `apiPath` (both outside the
`try` blocks).  Everything raised by `route_tool_call` is caught and
converted to a `{"error": str(e)}` body, exactly as the source's
`except Exception` does. -/
def handler (w : World) (event : Json) : Except String Json :=
  match event with
  | .obj fields =>
    let action_group := (jlookup fields "actionGroup").getD (.str "")
    let api_path := (jlookup fields "apiPath").getD (.str "")
    let http_method := (jlookup fields "httpMethod").getD (.str "POST")
    let request_body := (jlookup fields "requestBody").getD (.obj [])
    let params := extract_params request_body
    match (if pyTruthy api_path then
             match api_path with
             | .str s => Except.ok (String.mk (s.data.dropWhile (fun c => c = '/')))
             | _ => Except.error "AttributeError: lstrip"
           else Except.ok "") with
    | .error e => .error e
    | .ok function_name =>
        let result := match (route_tool_call w function_name params).1 with
          | .ok j => j
          | .error e => .obj [("error", .str e)]
        .ok (openApiResponse action_group api_path http_method result)
  | _ => .error "AttributeError: get"

/-- Tool names the `if/elif` chain of `route_tool_call` recognizes, in
source order. -/
def registeredTools : List String :=
  ["get_oee_breakdown", "get_equipment_states", "get_waste_by_line",
   "get_batch_health", "query_influxdb"]

/-- Backend path configured for each registered tool (the path part of the
URL each branch of `route_tool_call` requests, before any query string). -/
def configuredPath (fn : String) : String :=
  if fn = "get_oee_breakdown" then "/api/oee/v2"
  else if fn = "get_equipment_states" then "/api/factory/status"
  else if fn = "get_waste_by_line" then "/api/waste/breakdown"
  else if fn = "get_batch_health" then "/api/batch/health"
  else if fn = "query_influxdb" then "/api/influx/query"
  else ""

/-- Optional parameters of each registered tool with their declared
defaults: the second argument of each `params.get(key, default)` call in
`route_tool_call`. -/
def paramDefaults (fn : String) : List (PyKey × Json) :=
  if fn = "get_oee_breakdown" then [(.kstr "enterprise", .str "ALL")]
  else if fn = "get_equipment_states" then [(.kstr "enterprise", .str "ALL")]
  else if fn = "get_waste_by_line" then [(.kstr "enterprise", .str "ALL")]
  else if fn = "get_batch_health" then []
  else if fn = "query_influxdb" then
    [(.kstr "query", .str ""), (.kstr "max_rows", .num 1000 0)]
  else []

/-- Required parameters of each registered tool.  `route_tool_call` reads
every parameter through `params.get(key, default)`, so no parameter is
required: the list is empty for every tool. -/
def requiredParams (_fn : String) : List PyKey := []

/-- Validity of a parameter set for a tool: the enterprise-taking GET tools
need the `enterprise` value (explicit or defaulted) to be a string so that
`encode_param` does not raise; the other tools accept anything. -/
def paramsValid (fn : String) (params : PyDict) : Prop :=
  fn ∈ ["get_oee_breakdown", "get_equipment_states", "get_waste_by_line"] →
    ∃ s, dictGetD params (.kstr "enterprise") (.str "ALL") = .str s

/-- Process environment, as read through `os.environ.get`. -/
def Env : Type := String → Option String

/-- Model of the module-level
`BACKEND_API_URL = os.environ.get("BACKEND_API_URL", "http://localhost:3000")`
in the Lambda source: the base URL is an environment-configurable input. -/
def backendApiUrlOf (env : Env) : String :=
  (env "BACKEND_API_URL").getD "http://localhost:3000"

/-- Timeout (seconds) the Lambda passes to `urlopen`, as a function of the
process environment.  The source hard-codes `timeout=10` and reads no
environment variable for it, so this does not depend on `env`. -/
def requestTimeoutOf (_env : Env) : Nat := urlopenTimeout

/-- Tools available to the agent entrypoints in
`src/agent/chat/src/main.py` and `src/agent/troubleshoot/src/main.py`:
the local knowledge-base tool and the tools listed by the MCP gateway. -/
inductive AgentTool where
  | retrieve
  | mcpTool (name : String)
deriving DecidableEq

/-- Outcome of the MCP gateway connection attempt
(`MCPClient(...)`, `__enter__`, `list_tools_sync`): either a tool list or
some exception. -/
inductive MCPConnect where
  | tools (ts : List AgentTool)
  | raises
deriving DecidableEq

/-- Model of the tool-selection prologue shared verbatim by the `invoke`
entrypoints of the chat and troubleshoot agents:
`tools = [retrieve]`, then, only when `MCP_SERVER_URL` is truthy, a `try`
that replaces it with `[*mcp_client.list_tools_sync(), retrieve]` and an
`except Exception: pass` that keeps the local list.  The second component
collects warning/log events the prologue emits (the source emits none). -/
def invoke_tool_selection (mcpServerUrl : String) (conn : MCPConnect) :
    List AgentTool × List String :=
  if mcpServerUrl ≠ "" then
    match conn with
    | .tools ts => (ts ++ [.retrieve], [])
    | .raises => ([.retrieve], [])
  else ([.retrieve], [])

/-- Backend behaviour used to instantiate universally quantified theorems:
every request yields a 2xx response with body `null`. -/
def trivWorld : World := fun _ => .success .null

/-- Backend behaviour returning a 2xx response with body `{"oee": 0.82}`
for every request. -/
def w082 : World := fun _ => .success (.obj [("oee", .num 82 2)])

/-- Backend behaviour in which every request fails with a connection-level
error whose runtime reason text is `timed out`. -/
def wTimedOut : World := fun _ => .urlError "timed out"

/-- Request body of an event whose `properties` field is the given value
(the shape `handler` reads parameters from). -/
def mkRequestBody (props : Json) : Json :=
  .obj [("content", .obj [("application/json", .obj [("properties", props)])])]

/-- Every request built by `call_backend_api` carries the hard-coded
`timeout=10` of the `urlopen` call. -/
theorem mkRequest_timeoutSec (path : String) (m : Method) (d : Option Json) :
    (mkRequest path m d).timeoutSec = 10 := by
  unfold mkRequest
  split <;> rfl

/-- Looking up the key just stored finds the stored value. -/
theorem dictGet_dictSet_self (d : PyDict) (k : PyKey) (v : Json) :
    dictGet (dictSet d k v) k = some v := by
  induction d with
  | nil => simp [dictSet, dictGet]
  | cons kv rest ih =>
      by_cases h : kv.1 = k
      · simp [dictSet, dictGet, h]
      · simpa [dictSet, dictGet, h] using ih

/-- Storing under one key does not change lookups of a different key. -/
theorem dictGet_dictSet_ne (d : PyDict) (k k' : PyKey) (v : Json)
    (h : k' ≠ k) :
    dictGet (dictSet d k v) k' = dictGet d k' := by
  induction d with
  | nil => simp [dictSet, dictGet, Ne.symm h]
  | cons kv rest ih =>
      obtain ⟨k0, v0⟩ := kv
      by_cases hk : k0 = k
      · subst hk
        simp [dictSet, dictGet, Ne.symm h]
      · simp only [dictSet, dictGet, if_neg hk]
        by_cases hk' : k0 = k' <;> simp [dictGet, hk', ih]

/-- Routing a name outside the `if/elif` chain falls through to the final
`else`, returning the unknown-function dict without touching the backend. -/
theorem route_tool_call_unknown (w : World) (fn : String) (params : PyDict)
    (h : fn ∉ registeredTools) :
    route_tool_call w fn params =
      (.ok (.obj [("error", .str ("Unknown function: " ++ fn))]), []) := by
  simp only [registeredTools, List.mem_cons, List.not_mem_nil, or_false] at h
  push_neg at h
  obtain ⟨h1, h2, h3, h4, h5⟩ := h
  simp [route_tool_call, h1, h2, h3, h4, h5]

/-- C2: the claim fails as stated.  For the unregistered name
`nonexistent`, `route_tool_call` does return without raising and issues
zero backend calls, but the returned dict is
`{"error": "Unknown function: nonexistent"}`: it has no `success` field at
all and its error text is not `unknown tool: nonexistent`. -/
theorem C2_counterexample :
    (route_tool_call trivWorld "nonexistent" []).1 =
      .ok (.obj [("error", .str "Unknown function: nonexistent")]) ∧
    jlookup [("error", .str "Unknown function: nonexistent")] "success" =
      Option.none ∧
    jlookup [("error", .str "Unknown function: nonexistent")] "error" ≠
      some (.str "unknown tool: nonexistent") ∧
    (route_tool_call trivWorld "nonexistent" []).2 = [] := by decide

/-- C2 (amended): for every tool name matching no registered route,
`dispatch` returns the dict `{"error": "Unknown function: <name>"}`
(with no `success` field), issues zero backend calls, and never raises. -/
theorem C2_amended_unknown_tool (w : World) (fn : String) (params : PyDict)
    (h : fn ∉ registeredTools) :
    route_tool_call w fn params =
      (.ok (.obj [("error", .str ("Unknown function: " ++ fn))]), []) :=
  route_tool_call_unknown w fn params h

/-- C2 (amended) witness at the concrete name `nonexistent`. -/
theorem C2_amended_unknown_tool_witness :
    route_tool_call trivWorld "nonexistent" [] =
      (.ok (.obj [("error", .str "Unknown function: nonexistent")]), []) :=
  C2_amended_unknown_tool trivWorld "nonexistent" [] (by decide)

/-- C4: string parameter values wrapped in literal quote characters have
the wrapping quotes stripped before percent-encoding (the quote-wrapped
`"ENTERPRISE_A"` encodes to `ENTERPRISE_A`), the stripping always happens
before the percent-encoding, and stripping an already-unwrapped value
leaves it unchanged. -/
theorem C4_param_sanitization :
    encode_param (.str "\"ENTERPRISE_A\"") = .ok "ENTERPRISE_A" ∧
    (∀ v : String, encode_param (.str v) = .ok (urllibQuote (stripQuotes v))) ∧
    (∀ v : String, ¬(startsWithQuote v = true ∧ endsWithQuote v = true) →
      stripQuotes v = v) := by
  refine ⟨by decide, fun v => rfl, fun v hv => ?_⟩
  unfold stripQuotes
  rw [if_neg]
  simpa [Bool.and_eq_true] using hv

/-- C4 witness: the already-unwrapped value `ENTERPRISE_A` is left
unchanged by the stripping step. -/
theorem C4_param_sanitization_witness :
    stripQuotes "ENTERPRISE_A" = "ENTERPRISE_A" :=
  C4_param_sanitization.2.2 "ENTERPRISE_A" (by decide)

/-- C5: the claim fails as stated.  When the backend answers 2xx with body
`{"oee": 0.82}`, `dispatch` returns that parsed body itself — a dict with
no `success` and no `body` field — not the claimed envelope
`{success: true, body: {"oee": 0.82}}`. -/
theorem C5_counterexample :
    (route_tool_call w082 "get_oee_breakdown" []).1 =
      .ok (.obj [("oee", .num 82 2)]) ∧
    jlookup [("oee", .num 82 2)] "success" = Option.none ∧
    jlookup [("oee", .num 82 2)] "body" = Option.none ∧
    (route_tool_call w082 "get_oee_breakdown" []).1 ≠
      .ok (.obj [("success", .bool true), ("body", .obj [("oee", .num 82 2)])]) := by
  decide

/-- C5 (amended): for every matched tool call where the backend responds
2xx with JSON body `B`, dispatch returns the parsed body `B` itself,
exactly and untransformed (but unwrapped: there is no
`{success, body}` envelope around it). -/
theorem C5_amended_body_passthrough (w : World) (B : Json) (fn : String)
    (params : PyDict) (hfn : fn ∈ registeredTools) (hp : paramsValid fn params)
    (hw : ∀ r, w r = .success B) :
    (route_tool_call w fn params).1 = .ok B := by
  simp only [registeredTools, List.mem_cons, List.not_mem_nil, or_false] at hfn
  rcases hfn with h | h | h | h | h <;> subst h
  · obtain ⟨s, hs⟩ := hp (by decide)
    simp [route_tool_call, hs, encode_param, call_backend_api, hw]
  · obtain ⟨s, hs⟩ := hp (by decide)
    simp [route_tool_call, hs, encode_param, call_backend_api, hw]
  · obtain ⟨s, hs⟩ := hp (by decide)
    simp [route_tool_call, hs, encode_param, call_backend_api, hw]
  · simp [route_tool_call, call_backend_api, hw]
  · simp [route_tool_call, call_backend_api, hw]

/-- C5 (amended) witness: a 200 with body `{"oee": 0.82}` comes back
verbatim for a concrete tool call. -/
theorem C5_amended_body_passthrough_witness :
    (route_tool_call w082 "get_batch_health" []).1 =
      .ok (.obj [("oee", .num 82 2)]) :=
  C5_amended_body_passthrough w082 (.obj [("oee", .num 82 2)])
    "get_batch_health" [] (by decide) (fun h => absurd h (by decide))
    (fun r => rfl)

/-- C7: the claim fails as stated.  A parameter set shaped as a mapping —
whether name to literal value or name to a `{value: ...}` wrapper — is not
accepted: iterating the mapping visits its keys, whose `.get` raises, the
exception is swallowed, and the extracted parameter set is empty.  Only the
OpenAPI list of `{name, value}` records yields the parameter values. -/
theorem C7_counterexample :
    extract_params (mkRequestBody (.obj [("enterprise", .str "ALL")])) = [] ∧
    extract_params (mkRequestBody
      (.obj [("enterprise", .obj [("value", .str "ALL")])])) = [] ∧
    extract_params (mkRequestBody
      (.arr [.obj [("name", .str "enterprise"), ("value", .str "ALL")]])) =
      [(.kstr "enterprise", .str "ALL")] ∧
    ([] : PyDict) ≠ [((.kstr "enterprise" : PyKey), .str "ALL")] := by decide

/-- C7 (amended): the router reads parameters only from the OpenAPI shape
`properties = [{name: ..., value: ...}, ...]`; every mapping-shaped
parameter set (name to literal or name to `{value: ...}` wrapper alike)
yields the empty parameter set because the extraction error is swallowed. -/
theorem C7_amended_property_shapes (m : List (String × Json)) (n : String)
    (v : Json) :
    extract_params (mkRequestBody (.obj m)) = [] ∧
    extract_params (mkRequestBody (.arr [.obj [("name", .str n), ("value", v)]])) =
      [(.kstr n, v)] := by
  exact ⟨rfl, rfl⟩

/-- C9: when the MCP gateway connection attempt raises any exception, both
agent entrypoints fall back to exactly the local tool list `[retrieve]`,
no exception propagates (the selection still returns a value), and the
fallback is fully silent: no warning event is emitted. -/
theorem C9_mcp_silent_fallback (url : String) (hurl : url ≠ "") :
    invoke_tool_selection url .raises = ([.retrieve], []) := by
  simp [invoke_tool_selection, hurl]

/-- C9 witness at a concrete gateway URL. -/
theorem C9_mcp_silent_fallback_witness :
    invoke_tool_selection "https://gateway.example" .raises =
      ([.retrieve], []) :=
  C9_mcp_silent_fallback "https://gateway.example" (by decide)

/-- C10: every `get_batch_health` dispatch issues the same constant GET to
`/api/batch/health?enterprise=Enterprise%20C` regardless of the supplied
parameters, so two dispatches with different parameter sets behave
identically. -/
theorem C10_batch_health_constant (w : World) (p1 p2 : PyDict) :
    (route_tool_call w "get_batch_health" p1).2 =
      [⟨"/api/batch/health?enterprise=Enterprise%20C", .GET, Option.none, 10⟩] ∧
    route_tool_call w "get_batch_health" p1 =
      route_tool_call w "get_batch_health" p2 :=
  ⟨rfl, rfl⟩

/-- C6: for every matched tool call, a parameter absent from the invocation
is substituted with its declared default (dispatching without the key
equals dispatching with the key explicitly set to the default), and the
required-parameter list of every route is empty — `route_tool_call` reads
every parameter through `params.get(key, default)` — so the
missing-required-parameter error branch of the claim can never fire. -/
theorem C6_optional_defaults (w : World) (fn : String)
    (hfn : fn ∈ registeredTools) (k : PyKey) (d : Json)
    (hkd : (k, d) ∈ paramDefaults fn) (params : PyDict)
    (hmiss : dictGet params k = Option.none) :
    route_tool_call w fn params = route_tool_call w fn (dictSet params k d) ∧
    requiredParams fn = [] := by
  refine ⟨?_, rfl⟩
  simp only [registeredTools, List.mem_cons, List.not_mem_nil, or_false] at hfn
  rcases hfn with h | h | h | h | h
  · subst h
    have hpd : paramDefaults "get_oee_breakdown" =
        [(.kstr "enterprise", .str "ALL")] := rfl
    rw [hpd] at hkd
    simp only [List.mem_singleton, Prod.mk.injEq] at hkd
    obtain ⟨hk, hd⟩ := hkd
    subst hk; subst hd
    simp [route_tool_call, dictGetD, hmiss, dictGet_dictSet_self]
  · subst h
    have hpd : paramDefaults "get_equipment_states" =
        [(.kstr "enterprise", .str "ALL")] := rfl
    rw [hpd] at hkd
    simp only [List.mem_singleton, Prod.mk.injEq] at hkd
    obtain ⟨hk, hd⟩ := hkd
    subst hk; subst hd
    simp [route_tool_call, dictGetD, hmiss, dictGet_dictSet_self]
  · subst h
    have hpd : paramDefaults "get_waste_by_line" =
        [(.kstr "enterprise", .str "ALL")] := rfl
    rw [hpd] at hkd
    simp only [List.mem_singleton, Prod.mk.injEq] at hkd
    obtain ⟨hk, hd⟩ := hkd
    subst hk; subst hd
    simp [route_tool_call, dictGetD, hmiss, dictGet_dictSet_self]
  · subst h
    have hpd : paramDefaults "get_batch_health" = [] := rfl
    rw [hpd] at hkd
    exact absurd hkd (List.not_mem_nil _)
  · subst h
    have hpd : paramDefaults "query_influxdb" =
        [(.kstr "query", .str ""), (.kstr "max_rows", .num 1000 0)] := rfl
    rw [hpd] at hkd
    simp only [List.mem_cons, List.not_mem_nil, or_false,
      Prod.mk.injEq] at hkd
    rcases hkd with ⟨hk, hd⟩ | ⟨hk, hd⟩
    · subst hk; subst hd
      simp [route_tool_call, dictGetD, hmiss, dictGet_dictSet_self,
        dictGet_dictSet_ne params (.kstr "query") (.kstr "max_rows") (.str "")
          (by decide)]
    · subst hk; subst hd
      simp [route_tool_call, dictGetD, hmiss, dictGet_dictSet_self,
        dictGet_dictSet_ne params (.kstr "max_rows") (.kstr "query")
          (.num 1000 0) (by decide)]

/-- C6 witness: omitting `enterprise` on `get_oee_breakdown` behaves like
passing its declared default `ALL`. -/
theorem C6_optional_defaults_witness :
    route_tool_call trivWorld "get_oee_breakdown" [] =
      route_tool_call trivWorld "get_oee_breakdown"
        (dictSet [] (.kstr "enterprise") (.str "ALL")) ∧
    requiredParams "get_oee_breakdown" = [] :=
  C6_optional_defaults trivWorld "get_oee_breakdown" (by decide)
    (.kstr "enterprise") (.str "ALL") (by decide) [] rfl

/-- C3: the routing table has no duplicate names (the `if/elif` chain
matches at most one entry), an unmatched name is rejected with the
unknown-function error and zero backend calls, and every registered name
with valid parameters issues exactly one backend call whose path is the
one configured for that name (possibly followed by its query string). -/
theorem C3_route_uniqueness (w : World) (fn : String) (params : PyDict) :
    registeredTools.Nodup ∧
    (fn ∉ registeredTools →
      (route_tool_call w fn params).1 =
        .ok (.obj [("error", .str ("Unknown function: " ++ fn))]) ∧
      (route_tool_call w fn params).2 = []) ∧
    (fn ∈ registeredTools → paramsValid fn params →
      ∃ req, (route_tool_call w fn params).2 = [req] ∧
        (req.path = configuredPath fn ∨
         ∃ q, req.path = configuredPath fn ++ "?" ++ q)) := by
  refine ⟨by decide, fun h => ?_, fun hfn hp => ?_⟩
  · rw [route_tool_call_unknown w fn params h]
    exact ⟨rfl, rfl⟩
  · simp only [registeredTools, List.mem_cons, List.not_mem_nil, or_false] at hfn
    rcases hfn with h | h | h | h | h
    · subst h
      obtain ⟨s, hs⟩ := hp (by decide)
      refine ⟨⟨"/api/oee/v2?enterprise=" ++ urllibQuote (stripQuotes s),
          .GET, Option.none, 10⟩, ?_,
        Or.inr ⟨"enterprise=" ++ urllibQuote (stripQuotes s), ?_⟩⟩
      · simp [route_tool_call, hs, encode_param, call_backend_api, mkRequest,
          urlopenTimeout]
      · show "/api/oee/v2?enterprise=" ++ urllibQuote (stripQuotes s) =
          "/api/oee/v2" ++ "?" ++ ("enterprise=" ++ urllibQuote (stripQuotes s))
        rw [← String.append_assoc]
        exact congrArg (fun x => x ++ urllibQuote (stripQuotes s)) (by decide)
    · subst h
      obtain ⟨s, hs⟩ := hp (by decide)
      refine ⟨⟨"/api/factory/status?enterprise=" ++ urllibQuote (stripQuotes s),
          .GET, Option.none, 10⟩, ?_,
        Or.inr ⟨"enterprise=" ++ urllibQuote (stripQuotes s), ?_⟩⟩
      · simp [route_tool_call, hs, encode_param, call_backend_api, mkRequest,
          urlopenTimeout]
      · show "/api/factory/status?enterprise=" ++ urllibQuote (stripQuotes s) =
          "/api/factory/status" ++ "?" ++
            ("enterprise=" ++ urllibQuote (stripQuotes s))
        rw [← String.append_assoc]
        exact congrArg (fun x => x ++ urllibQuote (stripQuotes s)) (by decide)
    · subst h
      obtain ⟨s, hs⟩ := hp (by decide)
      refine ⟨⟨"/api/waste/breakdown?enterprise=" ++ urllibQuote (stripQuotes s),
          .GET, Option.none, 10⟩, ?_,
        Or.inr ⟨"enterprise=" ++ urllibQuote (stripQuotes s), ?_⟩⟩
      · simp [route_tool_call, hs, encode_param, call_backend_api, mkRequest,
          urlopenTimeout]
      · show "/api/waste/breakdown?enterprise=" ++ urllibQuote (stripQuotes s) =
          "/api/waste/breakdown" ++ "?" ++
            ("enterprise=" ++ urllibQuote (stripQuotes s))
        rw [← String.append_assoc]
        exact congrArg (fun x => x ++ urllibQuote (stripQuotes s)) (by decide)
    · subst h
      exact ⟨⟨"/api/batch/health?enterprise=Enterprise%20C", .GET,
          Option.none, 10⟩, rfl,
        Or.inr ⟨"enterprise=Enterprise%20C", by decide⟩⟩
    · subst h
      exact ⟨⟨"/api/influx/query", .POST,
          some (.obj [("query", dictGetD params (.kstr "query") (.str "")),
            ("max_rows", dictGetD params (.kstr "max_rows") (.num 1000 0))]),
          10⟩, rfl, Or.inl rfl⟩

/-- C3 witness: `get_oee_breakdown` with an empty parameter set issues
exactly one backend call on the configured `/api/oee/v2` path. -/
theorem C3_route_uniqueness_witness :
    ∃ req, (route_tool_call trivWorld "get_oee_breakdown" []).2 = [req] ∧
      (req.path = configuredPath "get_oee_breakdown" ∨
       ∃ q, req.path = configuredPath "get_oee_breakdown" ++ "?" ++ q) :=
  (C3_route_uniqueness trivWorld "get_oee_breakdown" []).2.2 (by decide)
    (fun _ => ⟨"ALL", rfl⟩)

/-- C8: the claim fails as stated.  In an environment in which every
variable is set to `999`, the base URL (which *is* an environment-style
configuration input) becomes `999`, but the timeout stays `10`: the
request timeout is the hard-coded literal `timeout=10` of the `urlopen`
call, not an optional environment-style configuration input. -/
theorem C8_counterexample :
    requestTimeoutOf (fun _ => some "999") = 10 ∧
    backendApiUrlOf (fun _ => some "999") = "999" ∧
    (10 : Nat) ≠ 999 := by decide

/-- C8 (amended): every outbound backend call passes the fixed, hard-coded
timeout of 10 seconds to the transport (the timeout is not an
environment-style configuration input), and when the transport reports a
connection failure / timeout (`URLError`) or any other exception (e.g. a
socket read timeout), dispatch returns an `{"error": ...}` envelope
carrying the runtime-supplied reason text instead of propagating. -/
theorem C8_amended_fixed_timeout (w : World) (fn : String) (params : PyDict) :
    (∀ req ∈ (route_tool_call w fn params).2, req.timeoutSec = 10) ∧
    (∀ env : Env, requestTimeoutOf env = 10) ∧
    (∀ path m d reason, w (mkRequest path m d) = .urlError reason →
      (call_backend_api w path m d).1 =
        .obj [("error", .str ("Failed to connect to backend: " ++ reason))]) ∧
    (∀ path m d msg, w (mkRequest path m d) = .otherExn msg →
      (call_backend_api w path m d).1 = .obj [("error", .str msg)]) := by
  refine ⟨?_, fun _ => rfl, fun path m d reason hw => ?_,
    fun path m d msg hw => ?_⟩
  · intro req hreq
    unfold route_tool_call at hreq
    repeat' split at hreq
    all_goals
      first
      | exact absurd hreq (List.not_mem_nil _)
      | (simp only [call_backend_api, List.mem_singleton] at hreq
         subst hreq
         exact mkRequest_timeoutSec _ _ _)
  · simp [call_backend_api, hw]
  · simp [call_backend_api, hw]

/-- C8 (amended) witness: a connection failure with runtime reason text
`timed out` yields the error envelope, for a concrete call. -/
theorem C8_amended_fixed_timeout_witness :
    (call_backend_api wTimedOut "/api/batch/health?enterprise=Enterprise%20C"
        .GET Option.none).1 =
      .obj [("error", .str "Failed to connect to backend: timed out")] :=
  (C8_amended_fixed_timeout wTimedOut "get_batch_health" []).2.2.1
    "/api/batch/health?enterprise=Enterprise%20C" .GET Option.none
    "timed out" rfl

/-- C1: for every backend behaviour and every incoming event carrying any
tool name (a string `apiPath`, or none) and any parameter set, the handler
returns a well-formed OpenAPI response envelope and never raises past the
router boundary; the failure modes are converted locally to the
`{"error": ...}` envelope shape: an unknown tool yields the
unknown-function error dict with no backend call, and every non-2xx
backend outcome (HTTP error status, connection failure, timeout, malformed
response body) yields an `{"error": ...}` dict (a missing-parameter
failure cannot occur, every parameter being optional — see C6). -/
theorem C1_handler_total (w : World) (fields : List (String × Json))
    (hap : (∃ s, jlookup fields "apiPath" = some (.str s)) ∨
           jlookup fields "apiPath" = none) :
    (∃ result, handler w (.obj fields) =
        .ok (openApiResponse ((jlookup fields "actionGroup").getD (.str ""))
          ((jlookup fields "apiPath").getD (.str ""))
          ((jlookup fields "httpMethod").getD (.str "POST")) result)) ∧
    (∀ fn params, fn ∉ registeredTools →
        route_tool_call w fn params =
          (.ok (.obj [("error", .str ("Unknown function: " ++ fn))]), [])) ∧
    (∀ path m d, (∀ b, w (mkRequest path m d) ≠ .success b) →
        ∃ s, (call_backend_api w path m d).1 = .obj [("error", .str s)]) := by
  refine ⟨?_, fun fn params h => route_tool_call_unknown w fn params h,
    fun path m d h => ?_⟩
  · rcases hap with ⟨s, hs⟩ | hs
    · by_cases hse : s = ""
      · subst hse
        exact ⟨_, by simp [handler, hs, pyTruthy]; rfl⟩
      · exact ⟨_, by simp [handler, hs, pyTruthy, hse]; rfl⟩
    · exact ⟨_, by simp [handler, hs, pyTruthy]; rfl⟩
  · cases hw : w (mkRequest path m d) with
    | success b => exact absurd hw (h b)
    | badJson msg => exact ⟨msg, by simp [call_backend_api, hw]⟩
    | httpError code reason =>
        exact ⟨"Backend returned " ++ toString code ++ ": " ++ reason,
          by simp [call_backend_api, hw]⟩
    | urlError reason =>
        exact ⟨"Failed to connect to backend: " ++ reason,
          by simp [call_backend_api, hw]⟩
    | otherExn msg => exact ⟨msg, by simp [call_backend_api, hw]⟩

/-- C1 witness: a concrete event produces a well-formed envelope. -/
theorem C1_handler_total_witness :
    ∃ result,
      handler trivWorld (.obj [("apiPath", .str "/get_oee_breakdown")]) =
        .ok (openApiResponse
          ((jlookup [("apiPath", .str "/get_oee_breakdown")] "actionGroup").getD
            (.str ""))
          ((jlookup [("apiPath", .str "/get_oee_breakdown")] "apiPath").getD
            (.str ""))
          ((jlookup [("apiPath", .str "/get_oee_breakdown")] "httpMethod").getD
            (.str "POST")) result) :=
  (C1_handler_total trivWorld [("apiPath", .str "/get_oee_breakdown")]
    (Or.inl ⟨"/get_oee_breakdown", rfl⟩)).1
